import Mathlib

/-!
Shallow embedding of the surveillance backend detection-configuration core
(surveillance/models.py, surveillance/serializers.py, surveillance/views.py).

The persisted database state is modelled as a `Store` holding the
`DetectionConfig` rows and the `DetectionRule` rows.  Django ORM calls are
modelled as pure functions over a `Store`; writes return the new store, and
operations that can leave the database mid-way (an exception raised after some
statements have committed, Django running in autocommit mode with no
transaction wrapper in the source) return an `OpResult` carrying both the
resulting store and the error, so partial writes are observable.

Python floats are modelled as `Rat` (the claims only store and compare the
values, no float arithmetic is performed), wall-clock times as hour/minute
pairs, and foreign keys as numeric ids.  Fields of the source models that no
claim touches (names, rtsp urls, timestamps, row ids of rules) are omitted.
-/

abbrev UserId := Nat

abbrev CameraId := Nat

abbrev ConfigId := Nat

/-- Camera row: `Camera` in models.py (name, rtsp_url, timestamps omitted). -/
structure Camera where
  id : CameraId
  user : UserId
  is_active : Bool
deriving DecidableEq, Repr

/-- The `MONITOR_MODE_CHOICES` of `DetectionConfig` in models.py. -/
inductive MonitorMode where
  | always
  | after_hours
  | custom
deriving DecidableEq, Repr

/-- The `THREAT_LEVEL_CHOICES` of `DetectionRule` in models.py. -/
inductive ThreatLevel where
  | HIGH
  | MEDIUM
  | LOW
  | IGNORE
deriving DecidableEq, Repr

/-- A wall-clock time of day, the value of a Django `TimeField`. -/
structure TimeOfDay where
  hour : Nat
  minute : Nat
deriving DecidableEq, Repr

/-- `DetectionConfig` row in models.py.  The field defaults mirror the model
field defaults (`monitor_mode = always`, `timezone = UTC`,
`confidence_threshold = 0.6`, `frame_skip = 5`, nullable time fields). -/
structure DetectionConfig where
  id : ConfigId
  user : Option UserId
  camera : Option CameraId
  monitor_mode : MonitorMode := .always
  active_hours_start : Option TimeOfDay := none
  active_hours_end : Option TimeOfDay := none
  timezone : String := "UTC"
  confidence_threshold : Rat := mkRat 3 5
  frame_skip : Int := 5
deriving DecidableEq, Repr

/-- `DetectionRule` row in models.py (the surrogate row id is omitted; rules
are addressed through their parent config id). -/
structure DetectionRule where
  config : ConfigId
  object_class : String
  threat_level : ThreatLevel := .MEDIUM
  should_alert : Bool := true
  min_confidence : Option Rat := none
deriving DecidableEq, Repr

/-- The persisted database state relevant to the configuration core. -/
structure Store where
  configs : List DetectionConfig
  rules : List DetectionRule
deriving DecidableEq, Repr

/-- `SECURITY_RELEVANT_COCO_CLASSES` from models.py (class key, display name). -/
def SECURITY_RELEVANT_COCO_CLASSES : List (String × String) :=
  [("person", "Person"), ("bicycle", "Bicycle"), ("car", "Car"),
   ("motorcycle", "Motorcycle"), ("bus", "Bus"), ("truck", "Truck"),
   ("backpack", "Backpack"), ("handbag", "Handbag"), ("suitcase", "Suitcase"),
   ("knife", "Knife"), ("bottle", "Bottle"), ("cell phone", "Cell Phone"),
   ("laptop", "Laptop")]

/-- Modelled abstraction of the pytz IANA timezone database (an external
library consulted by `DetectionConfig.clean`); a finite sample of known zone
names suffices for the claims, which only use `UTC`. -/
def pytz_known_timezones : List String :=
  ["UTC", "America/New_York", "Europe/London", "Asia/Tokyo"]

/-- `DetectionConfig.clean` in models.py: scope exclusivity, time-window
completeness for modes that need a window, timezone validity. -/
def DetectionConfig.clean (c : DetectionConfig) : Except String Unit :=
  if c.user = none ∧ c.camera = none then
    .error "Either user or camera must be set, but not both."
  else if c.user ≠ none ∧ c.camera ≠ none then
    .error "Cannot set both user and camera. Choose one."
  else if (c.monitor_mode = .after_hours ∨ c.monitor_mode = .custom) ∧
      (c.active_hours_start = none ∨ c.active_hours_end = none) then
    .error "active_hours_start and active_hours_end are required for this monitor_mode"
  else if ¬ pytz_known_timezones.contains c.timezone then
    .error "Invalid timezone"
  else
    .ok ()

/-- The two conditional `UniqueConstraint`s of `DetectionConfig.Meta`:
unique user among rows with camera null, unique camera among rows with user
null; `exceptId` excludes the row being updated. -/
def violatesUniqueConstraints (s : Store) (c : DetectionConfig) : Bool :=
  s.configs.any (fun c0 =>
    decide (c0.id ≠ c.id) &&
    ((decide (c.camera = none) && decide (c0.camera = none) && decide (c0.user = c.user)) ||
     (decide (c.user = none) && decide (c0.user = none) && decide (c0.camera = c.camera))))

/-- `DetectionConfig.save` on a fresh row (`objects.create`): `full_clean`
(which runs `clean` and the uniqueness validation) and then the INSERT.
A failure leaves the store untouched (the row write is a single statement). -/
def DetectionConfig.save_insert (s : Store) (c : DetectionConfig) : Except String Store :=
  match c.clean with
  | .error e => .error e
  | .ok _ =>
    if violatesUniqueConstraints s c then
      .error "IntegrityError: unique constraint on config scope"
    else
      .ok { s with configs := s.configs ++ [c] }

/-- `DetectionConfig.save` on an existing row: `full_clean` and then the
UPDATE of the row with the same primary key. -/
def DetectionConfig.save_update (s : Store) (c : DetectionConfig) : Except String Store :=
  match c.clean with
  | .error e => .error e
  | .ok _ =>
    if violatesUniqueConstraints s c then
      .error "IntegrityError: unique constraint on config scope"
    else
      .ok { s with configs := s.configs.map (fun c0 => if c0.id = c.id then c else c0) }

/-- `DetectionConfig.objects.get(camera=camera)` (the DB unique constraint
guarantees at most one match, so the first match models `get`). -/
def Store.getCameraOverride (s : Store) (cid : CameraId) : Option DetectionConfig :=
  s.configs.find? (fun c => decide (c.camera = some cid))

/-- `DetectionConfig.objects.get(user=u, camera__isnull=True)`. -/
def Store.getUserDefault (s : Store) (uid : UserId) : Option DetectionConfig :=
  s.configs.find? (fun c => decide (c.user = some uid) && decide (c.camera = none))

/-- `DetectionConfig.get_effective_config_for_camera` in models.py:
camera override first, then user default, else `None`. -/
def DetectionConfig.get_effective_config_for_camera (s : Store) (cam : Camera) :
    Option DetectionConfig :=
  match s.getCameraOverride cam.id with
  | some c => some c
  | none => s.getUserDefault cam.user

/-- Shape of the `get_system_defaults` dict in models.py. -/
structure SystemDefaults where
  monitor_mode : MonitorMode
  active_hours_start : Option TimeOfDay
  active_hours_end : Option TimeOfDay
  timezone : String
  confidence_threshold : Rat
  frame_skip : Int
deriving DecidableEq, Repr

/-- `DetectionConfig.get_system_defaults` in models.py. -/
def DetectionConfig.get_system_defaults : SystemDefaults :=
  { monitor_mode := .always
    active_hours_start := none
    active_hours_end := none
    timezone := "UTC"
    confidence_threshold := mkRat 3 5
    frame_skip := 5 }

/-- `DetectionRule.get_effective_confidence` in models.py, with the parent
config (`self.config`) passed explicitly. -/
def DetectionRule.get_effective_confidence (r : DetectionRule) (cfg : DetectionConfig) : Rat :=
  match r.min_confidence with
  | some v => v
  | none => cfg.confidence_threshold

/-- One serialized rule as produced by `DetectionRuleSerializer` (row id
omitted). -/
structure RuleRecord where
  object_class : String
  threat_level : ThreatLevel
  should_alert : Bool
  min_confidence : Option Rat
  effective_confidence : Rat
deriving DecidableEq, Repr

/-- The uniform effective-configuration record built by
`ActiveCameraWithConfigSerializer.get_effective_config` in serializers.py. -/
structure EffectiveConfig where
  monitor_mode : MonitorMode
  active_hours_start : Option TimeOfDay
  active_hours_end : Option TimeOfDay
  timezone : String
  confidence_threshold : Rat
  frame_skip : Int
  detection_rules : List RuleRecord
  is_system_default : Bool
deriving DecidableEq, Repr

/-- `DetectionRuleSerializer` applied to one rule of config `cfg`. -/
def serializeRule (cfg : DetectionConfig) (r : DetectionRule) : RuleRecord :=
  { object_class := r.object_class
    threat_level := r.threat_level
    should_alert := r.should_alert
    min_confidence := r.min_confidence
    effective_confidence := r.get_effective_confidence cfg }

/-- `config.detection_rules.all()`: the stored rules of one config. -/
def Store.configRules (s : Store) (cfgId : ConfigId) : List DetectionRule :=
  s.rules.filter (fun r => decide (r.config = cfgId))

/-- `ActiveCameraWithConfigSerializer.get_effective_config` in serializers.py:
serialize the resolved config with its rules, or synthesize the system
defaults with an empty rule list. -/
def ActiveCameraWithConfigSerializer.get_effective_config (s : Store) (cam : Camera) :
    EffectiveConfig :=
  match DetectionConfig.get_effective_config_for_camera s cam with
  | some cfg =>
    { monitor_mode := cfg.monitor_mode
      active_hours_start := cfg.active_hours_start
      active_hours_end := cfg.active_hours_end
      timezone := cfg.timezone
      confidence_threshold := cfg.confidence_threshold
      frame_skip := cfg.frame_skip
      detection_rules := (s.configRules cfg.id).map (serializeRule cfg)
      is_system_default := false }
  | none =>
    { monitor_mode := DetectionConfig.get_system_defaults.monitor_mode
      active_hours_start := none
      active_hours_end := none
      timezone := DetectionConfig.get_system_defaults.timezone
      confidence_threshold := DetectionConfig.get_system_defaults.confidence_threshold
      frame_skip := DetectionConfig.get_system_defaults.frame_skip
      detection_rules := []
      is_system_default := true }

/-- One entry of the `detection_rules` list accepted by
`DetectionRuleSerializer` on write (fields with model defaults are optional;
the defaults mirror the model: `threat_level = MEDIUM`, `should_alert = True`,
`min_confidence = None`). -/
structure RuleData where
  object_class : String
  threat_level : ThreatLevel := .MEDIUM
  should_alert : Bool := true
  min_confidence : Option Rat := none
deriving DecidableEq, Repr

/-- The validated data of `DetectionConfigCreateSerializer` (serializers.py).
Every declared field carries a model default, so DRF treats all of them as
optional; `none` means the field was absent from the request.  The serializer
declares no `user` or `camera` field.  The time fields are nullable, hence the
inner `Option`. -/
structure UpdateData where
  monitor_mode : Option MonitorMode := none
  active_hours_start : Option (Option TimeOfDay) := none
  active_hours_end : Option (Option TimeOfDay) := none
  timezone : Option String := none
  confidence_threshold : Option Rat := none
  frame_skip : Option Int := none
  detection_rules : Option (List RuleData) := none
deriving DecidableEq, Repr

/-- Field-level validation a rule entry is subject to on write: its
`object_class` is a `ChoiceField` over `SECURITY_RELEVANT_COCO_CLASSES`.
No bound is checked on `min_confidence`. -/
def RuleData.is_valid (r : RuleData) : Bool :=
  (SECURITY_RELEVANT_COCO_CLASSES.map Prod.fst).contains r.object_class

/-- `DetectionConfigCreateSerializer.is_valid()`: all typed field checks are
absorbed by the embedding types; what remains is the choice check on each
supplied rule.  No check inspects `confidence_threshold`. -/
def UpdateData.is_valid (d : UpdateData) : Bool :=
  (d.detection_rules.getD []).all RuleData.is_valid

/-- The `setattr` loop of `DetectionConfigCreateSerializer.update`: overwrite
exactly the supplied fields; `user`, `camera` and `id` are not serializer
fields and are never touched. -/
def applyUpdate (inst : DetectionConfig) (d : UpdateData) : DetectionConfig :=
  { inst with
    monitor_mode := d.monitor_mode.getD inst.monitor_mode
    active_hours_start := d.active_hours_start.getD inst.active_hours_start
    active_hours_end := d.active_hours_end.getD inst.active_hours_end
    timezone := d.timezone.getD inst.timezone
    confidence_threshold := d.confidence_threshold.getD inst.confidence_threshold
    frame_skip := d.frame_skip.getD inst.frame_skip }

/-- `DetectionConfig.objects.create(user=..., camera=..., **validated_data)`
builds the row: supplied fields from the data, model defaults otherwise. -/
def DetectionConfig.ofValidatedData (id : ConfigId) (user : Option UserId)
    (camera : Option CameraId) (d : UpdateData) : DetectionConfig :=
  { id := id
    user := user
    camera := camera
    monitor_mode := d.monitor_mode.getD .always
    active_hours_start := d.active_hours_start.getD none
    active_hours_end := d.active_hours_end.getD none
    timezone := d.timezone.getD "UTC"
    confidence_threshold := d.confidence_threshold.getD (mkRat 3 5)
    frame_skip := d.frame_skip.getD 5 }

/-- `DetectionRule.objects.create(config=config, **rule_data)`. -/
def DetectionRule.ofData (cfgId : ConfigId) (r : RuleData) : DetectionRule :=
  { config := cfgId
    object_class := r.object_class
    threat_level := r.threat_level
    should_alert := r.should_alert
    min_confidence := r.min_confidence }

/-- Outcome of a multi-statement write operation: the store after the
statements that committed, plus the error if one was raised.  Django runs the
source views in autocommit mode (no transaction wrapper appears in the
source), so statements before a failure stay committed. -/
structure OpResult where
  store : Store
  error : Option String
deriving DecidableEq, Repr

/-- The rule-creation loop of the serializer and the views: insert the rules
one by one; `DetectionRule.save` runs no `full_clean`, so the only failure is
the database `unique_together (config, object_class)` constraint, raised after
the earlier inserts committed. -/
def insertRules (s : Store) (cfgId : ConfigId) : List RuleData → OpResult
  | [] => ⟨s, none⟩
  | rd :: rest =>
    if s.rules.any (fun r =>
        decide (r.config = cfgId) && decide (r.object_class = rd.object_class)) then
      ⟨s, some "IntegrityError: duplicate detection rule for object class"⟩
    else
      insertRules { s with rules := s.rules ++ [DetectionRule.ofData cfgId rd] } cfgId rest

/-- `DetectionConfigCreateSerializer.update` in serializers.py: write the
updated config row, then, only when a rules list was supplied, delete the
existing rules of the config and recreate the supplied ones. -/
def DetectionConfigCreateSerializer.update (s : Store) (inst : DetectionConfig)
    (d : UpdateData) : OpResult :=
  let inst2 := applyUpdate inst d
  match DetectionConfig.save_update s inst2 with
  | .error e => ⟨s, some e⟩
  | .ok s1 =>
    match d.detection_rules with
    | none => ⟨s1, none⟩
    | some rds =>
      insertRules
        { s1 with rules := s1.rules.filter (fun r => ! decide (r.config = inst.id)) }
        inst.id rds

/-- The PUT branch of the `camera_config` view in views.py: validate the
request data, then update the existing override in place if one exists, else
create a new override row for the camera followed by its rules.  `newId` is
the primary key the database would assign to a freshly inserted config. -/
def camera_config_put (s : Store) (cam : Camera) (d : UpdateData) (newId : ConfigId) :
    OpResult :=
  if d.is_valid then
    match s.getCameraOverride cam.id with
    | some existing => DetectionConfigCreateSerializer.update s existing d
    | none =>
      match DetectionConfig.save_insert s (DetectionConfig.ofValidatedData newId none (some cam.id) d) with
      | .error e => ⟨s, some e⟩
      | .ok s1 => insertRules s1 newId (d.detection_rules.getD [])
  else
    ⟨s, some "serializer validation failed"⟩

/-- The PUT branch of the `user_default_config` view in views.py, symmetric to
`camera_config_put` with the user as scope. -/
def user_default_put (s : Store) (uid : UserId) (d : UpdateData) (newId : ConfigId) :
    OpResult :=
  if d.is_valid then
    match s.getUserDefault uid with
    | some existing => DetectionConfigCreateSerializer.update s existing d
    | none =>
      match DetectionConfig.save_insert s (DetectionConfig.ofValidatedData newId (some uid) none d) with
      | .error e => ⟨s, some e⟩
      | .ok s1 => insertRules s1 newId (d.detection_rules.getD [])
  else
    ⟨s, some "serializer validation failed"⟩

/-- A config row references exactly one scope: a user or a camera. -/
def scopeOk (c : DetectionConfig) : Prop :=
  (c.user.isSome ∧ c.camera = none) ∨ (c.user = none ∧ c.camera.isSome)

instance (c : DetectionConfig) : Decidable (scopeOk c) := by
  unfold scopeOk; infer_instance

/-- A list of rule entries with pairwise distinct object classes. -/
def noDupClasses : List RuleData → Bool
  | [] => true
  | rd :: rest =>
    (! rest.any (fun rd2 => decide (rd2.object_class = rd.object_class))) && noDupClasses rest

/-- Modelled from the spec: the monitor-mode active-window predicate of
section 4.4 is consumed by the external detection pipeline and has no
implementation under src/; it is modelled here from the spec text.  `now` is
the current wall-clock time already converted to the timezone of the config
(the examples of the spec use UTC, where the conversion is the identity).
The wrapped closed-interval membership test: when start is not after end the
interval is the ordinary [start, end]; when start is after end the interval
wraps past midnight. -/
def timeWithinWindow (wstart wend now : TimeOfDay) : Bool :=
  let toMin := fun (t : TimeOfDay) => t.hour * 60 + t.minute
  if toMin wstart ≤ toMin wend then
    decide (toMin wstart ≤ toMin now) && decide (toMin now ≤ toMin wend)
  else
    decide (toMin wstart ≤ toMin now) || decide (toMin now ≤ toMin wend)

/-- Modelled from the spec: monitor-mode evaluation of section 4.4.
`always` is active at all times; `custom` is active inside the (wrapped)
window; `after_hours` is active outside it.  Missing bounds under the two
window modes are a data-integrity violation and fail loudly (`none`). -/
def monitoringActive (mode : MonitorMode) (wstart wend : Option TimeOfDay)
    (now : TimeOfDay) : Option Bool :=
  match mode with
  | .always => some true
  | .custom =>
    match wstart, wend with
    | some s0, some e0 => some (timeWithinWindow s0 e0 now)
    | _, _ => none
  | .after_hours =>
    match wstart, wend with
    | some s0, some e0 => some (! timeWithinWindow s0 e0 now)
    | _, _ => none

/-- The empty database. -/
def s0 : Store := ⟨[], []⟩

/-- Example camera 1, owned by user 1. -/
def camA : Camera := ⟨1, 1, true⟩

/-- Example camera 2 of user 1, without an override. -/
def camB : Camera := ⟨2, 1, true⟩

/-- Example camera 3 of user 1, without an override. -/
def camD : Camera := ⟨3, 1, true⟩

/-- Example user-level default config of user 1. -/
def cfgU : DetectionConfig := { id := 2, user := some 1, camera := none, confidence_threshold := mkRat 7 10 }

/-- Example camera-level override config of camera 1. -/
def cfgC : DetectionConfig := { id := 3, user := none, camera := some 1, confidence_threshold := mkRat 9 10 }

/-- Store holding both the override of camera 1 and the default of user 1. -/
def sW : Store := ⟨[cfgC, cfgU], []⟩

/-- Example rule with its own confidence threshold. -/
def ruleOwn : DetectionRule := { config := 2, object_class := "person", min_confidence := some (mkRat 9 10) }

/-- Example rule without its own confidence threshold. -/
def ruleFall : DetectionRule := { config := 2, object_class := "car" }

/-- Config with both scopes set, for the C5 witness. -/
def cfgBoth : DetectionConfig := { id := 1, user := some 1, camera := some 1 }

/-- Config with neither scope set, for the C5 witness. -/
def cfgNeither : DetectionConfig := { id := 1, user := none, camera := none }

/-- C6 counterexample data: override of camera 1 with all default values. -/
def cfgCam6 : DetectionConfig := { id := 10, user := none, camera := some 1 }

/-- C6 counterexample data: default of user 1 with all default values. -/
def cfgUser6 : DetectionConfig := { id := 11, user := some 1, camera := none }

/-- C6 counterexample store: both configs of user 1 present. -/
def s6 : Store := ⟨[cfgCam6, cfgUser6], []⟩

/-- Rule list used by witnesses: one person rule. -/
def dRules : UpdateData := { detection_rules := some [{ object_class := "person", threat_level := .HIGH }] }

/-- Update data touching only the confidence threshold, for witnesses. -/
def dThr : UpdateData := { confidence_threshold := some (mkRat 1 2) }

/-- Conflict-free two-rule list, for the C4 witness. -/
def dGood : UpdateData :=
  { detection_rules :=
      some [{ object_class := "person", threat_level := .HIGH },
            { object_class := "car" }] }

/-- Rule list with a duplicate object class, for the C4 counterexample. -/
def dDup : UpdateData :=
  { detection_rules :=
      some [{ object_class := "person", threat_level := .HIGH },
            { object_class := "person", threat_level := .LOW, should_alert := false }] }

/-- Out-of-range confidence threshold, for C8. -/
def dHigh : UpdateData := { confidence_threshold := some (mkRat 3 2) }

/-- C1: the resolver applies three-tier precedence with first match wins:
a camera override is authoritative regardless of any user default; with no
override the result is the user default, and it is the same for every camera
of that user lacking an override. -/
theorem detection_config_three_tier (s : Store) (cam cam2 : Camera) :
    (∀ c, s.getCameraOverride cam.id = some c →
      DetectionConfig.get_effective_config_for_camera s cam = some c) ∧
    (s.getCameraOverride cam.id = none →
      DetectionConfig.get_effective_config_for_camera s cam = s.getUserDefault cam.user) ∧
    (cam.user = cam2.user → s.getCameraOverride cam.id = none →
      s.getCameraOverride cam2.id = none →
      DetectionConfig.get_effective_config_for_camera s cam =
        DetectionConfig.get_effective_config_for_camera s cam2) := by
  refine ⟨?_, ?_, ?_⟩
  · intro c h
    simp [DetectionConfig.get_effective_config_for_camera, h]
  · intro h
    simp [DetectionConfig.get_effective_config_for_camera, h]
  · intro hu h1 h2
    simp [DetectionConfig.get_effective_config_for_camera, h1, h2, hu]

/-- Witness for C1 on a concrete store: camera 1 gets its override, cameras 2
and 3 of the same user both get the user default. -/
theorem detection_config_three_tier_witness :
    DetectionConfig.get_effective_config_for_camera sW camA = some cfgC ∧
    DetectionConfig.get_effective_config_for_camera sW camB = sW.getUserDefault 1 ∧
    DetectionConfig.get_effective_config_for_camera sW camB =
      DetectionConfig.get_effective_config_for_camera sW camD := by
  refine ⟨(detection_config_three_tier sW camA camA).1 cfgC (by decide), ?_,
    (detection_config_three_tier sW camB camD).2.2 rfl (by decide) (by decide)⟩
  exact (detection_config_three_tier sW camB camB).2.1 (by decide)

/-- C2: the effective confidence of a rule is its own `min_confidence` when
non-null, else the confidence threshold of the parent config; no other tier. -/
theorem rule_confidence_two_tier_fallback (r : DetectionRule) (cfg : DetectionConfig) :
    (∀ v, r.min_confidence = some v → r.get_effective_confidence cfg = v) ∧
    (r.min_confidence = none → r.get_effective_confidence cfg = cfg.confidence_threshold) := by
  constructor
  · intro v h
    simp [DetectionRule.get_effective_confidence, h]
  · intro h
    simp [DetectionRule.get_effective_confidence, h]
/-- Witness for C2: under parent threshold 0.7, a rule with 0.9 reports 0.9
and a rule with no own threshold reports 0.7. -/
theorem rule_confidence_two_tier_fallback_witness :
    ruleOwn.get_effective_confidence cfgU = mkRat 9 10 ∧
    ruleFall.get_effective_confidence cfgU = mkRat 7 10 := by
  constructor
  · exact (rule_confidence_two_tier_fallback ruleOwn cfgU).1 (mkRat 9 10) rfl
  · exact (rule_confidence_two_tier_fallback ruleFall cfgU).2 rfl

/-- C3: with no config at any tier, the serialized effective config is exactly
the system-default record: mode always, no window, UTC, threshold 0.6, frame
skip 5, empty rule list, flagged as system default. -/
theorem resolver_synthesizes_system_defaults (s : Store) (cam : Camera)
    (h1 : s.getCameraOverride cam.id = none)
    (h2 : s.getUserDefault cam.user = none) :
    ActiveCameraWithConfigSerializer.get_effective_config s cam =
      { monitor_mode := .always
        active_hours_start := none
        active_hours_end := none
        timezone := "UTC"
        confidence_threshold := mkRat 3 5
        frame_skip := 5
        detection_rules := []
        is_system_default := true } := by
  simp [ActiveCameraWithConfigSerializer.get_effective_config,
    DetectionConfig.get_effective_config_for_camera, h1, h2,
    DetectionConfig.get_system_defaults]

/-- Witness for C3 on the empty store. -/
theorem resolver_synthesizes_system_defaults_witness :
    ActiveCameraWithConfigSerializer.get_effective_config s0 camA =
      { monitor_mode := .always
        active_hours_start := none
        active_hours_end := none
        timezone := "UTC"
        confidence_threshold := mkRat 3 5
        frame_skip := 5
        detection_rules := []
        is_system_default := true } :=
  resolver_synthesizes_system_defaults s0 camA rfl rfl

/-- C9 (modelled from the spec, section 4.4): for the wrapped window
22:00 to 06:00 in UTC, custom mode is active at 23:00 UTC and inactive at
12:00 UTC, and after-hours mode is inactive at 23:00 UTC and active at
12:00 UTC. -/
theorem window_evaluation_example :
    monitoringActive .custom (some ⟨22, 0⟩) (some ⟨6, 0⟩) ⟨23, 0⟩ = some true ∧
    monitoringActive .custom (some ⟨22, 0⟩) (some ⟨6, 0⟩) ⟨12, 0⟩ = some false ∧
    monitoringActive .after_hours (some ⟨22, 0⟩) (some ⟨6, 0⟩) ⟨23, 0⟩ = some false ∧
    monitoringActive .after_hours (some ⟨22, 0⟩) (some ⟨6, 0⟩) ⟨12, 0⟩ = some true := by
  decide

/-- A config accepted by `DetectionConfig.clean` has exactly one scope. -/
theorem scopeOk_of_clean (c : DetectionConfig) (h : c.clean = .ok ()) : scopeOk c := by
  unfold DetectionConfig.clean at h
  split at h
  · exact absurd h (by simp)
  split at h
  · exact absurd h (by simp)
  rename_i hnot1 hnot2
  rcases hcu : c.user with _ | u
  · rcases hcc : c.camera with _ | cc
    · exact absurd ⟨hcu, hcc⟩ hnot1
    · exact Or.inr ⟨hcu, by simp [hcc]⟩
  · rcases hcc : c.camera with _ | cc
    · exact Or.inl ⟨by simp [hcu], hcc⟩
    · exact absurd ⟨by simp [hcu], by simp [hcc]⟩ hnot2

/-- C5: persisting a config with neither scope set or with both scopes set is
rejected by validation (nothing reaches the store), and every config a
successful save leaves in the store has exactly one scope. -/
theorem scope_exclusivity_enforced (s : Store) (c : DetectionConfig)
    (hinv : ∀ c0 ∈ s.configs, scopeOk c0) :
    (c.user = none ∧ c.camera = none →
      DetectionConfig.save_insert s c =
        .error "Either user or camera must be set, but not both.") ∧
    (c.user.isSome ∧ c.camera.isSome →
      DetectionConfig.save_insert s c =
        .error "Cannot set both user and camera. Choose one.") ∧
    (∀ s', DetectionConfig.save_insert s c = .ok s' → ∀ c0 ∈ s'.configs, scopeOk c0) := by
  refine ⟨?_, ?_, ?_⟩
  · rintro ⟨hu, hc⟩
    simp [DetectionConfig.save_insert, DetectionConfig.clean, hu, hc]
  · rintro ⟨hu, hc⟩
    obtain ⟨u, hu'⟩ := Option.isSome_iff_exists.mp hu
    obtain ⟨cc, hc'⟩ := Option.isSome_iff_exists.mp hc
    simp [DetectionConfig.save_insert, DetectionConfig.clean, hu', hc']
  · intro s' hok c0 hc0
    unfold DetectionConfig.save_insert at hok
    cases hclean : c.clean with
    | error e => rw [hclean] at hok; exact absurd hok (by simp)
    | ok u =>
      rw [hclean] at hok
      by_cases hviol : violatesUniqueConstraints s c
      · rw [if_pos hviol] at hok
        exact absurd hok (by simp)
      · rw [if_neg hviol] at hok
        have hs' : s' = { s with configs := s.configs ++ [c] } := by
          cases hok; rfl
        subst hs'
        simp only [List.mem_append, List.mem_singleton] at hc0
        rcases hc0 with h0 | h0
        · exact hinv c0 h0
        · rw [h0]
          exact scopeOk_of_clean c hclean
/-- Witness for C5 on concrete configs over the empty store. -/
theorem scope_exclusivity_enforced_witness :
    DetectionConfig.save_insert s0 cfgBoth =
      .error "Cannot set both user and camera. Choose one." ∧
    DetectionConfig.save_insert s0 cfgNeither =
      .error "Either user or camera must be set, but not both." := by
  constructor
  · exact (scope_exclusivity_enforced s0 cfgBoth
      (by intro c0 h0; simp [s0] at h0)).2.1 (by decide)
  · exact (scope_exclusivity_enforced s0 cfgNeither
      (by intro c0 h0; simp [s0] at h0)).1 (by decide)
/-- Counterexample to C6: camera 1 resolves at the camera-override tier and
camera 2 at the user-default tier, yet the two serialized records are equal,
so no field of the record (there is no `origin_tag`, only the boolean
`is_system_default`) lets the consumer tell those two tiers apart. -/
theorem origin_tag_counterexample :
    DetectionConfig.get_effective_config_for_camera s6 camA = some cfgCam6 ∧
    cfgCam6.camera = some camA.id ∧
    DetectionConfig.get_effective_config_for_camera s6 camB = some cfgUser6 ∧
    cfgUser6.camera = none ∧ cfgUser6.user = some 1 ∧
    ActiveCameraWithConfigSerializer.get_effective_config s6 camA =
      ActiveCameraWithConfigSerializer.get_effective_config s6 camB := by
  decide

/-- C6 amended: the serialized effective config has the same record shape in
all three cases, and its `is_system_default` flag is true exactly when no
stored config resolves for the camera; this is the only tier information the
record carries. -/
theorem effective_config_uniform_shape (s : Store) (cam : Camera) :
    (ActiveCameraWithConfigSerializer.get_effective_config s cam).is_system_default = true ↔
      DetectionConfig.get_effective_config_for_camera s cam = none := by
  rcases h : DetectionConfig.get_effective_config_for_camera s cam with _ | cfg
  · simp [ActiveCameraWithConfigSerializer.get_effective_config, h]
  · simp [ActiveCameraWithConfigSerializer.get_effective_config, h]

/-- A successful rule-insertion loop appends exactly the supplied rules. -/
theorem insertRules_error_none (cfgId : ConfigId) :
    ∀ (rds : List RuleData) (s : Store),
      (insertRules s cfgId rds).error = none →
      (insertRules s cfgId rds).store.rules =
        s.rules ++ rds.map (DetectionRule.ofData cfgId) := by
  intro rds
  induction rds with
  | nil =>
    intro s h
    simp [insertRules]
  | cons rd rest ih =>
    intro s h
    unfold insertRules at h ⊢
    by_cases hc : s.rules.any (fun r =>
        decide (r.config = cfgId) && decide (r.object_class = rd.object_class)) = true
    · rw [if_pos hc] at h
      simp at h
    · rw [if_neg hc] at h ⊢
      rw [ih _ h]
      simp

/-- The rule-insertion loop never touches the config rows. -/
theorem insertRules_configs (cfgId : ConfigId) :
    ∀ (rds : List RuleData) (s : Store),
      (insertRules s cfgId rds).store.configs = s.configs := by
  intro rds
  induction rds with
  | nil =>
    intro s
    simp [insertRules]
  | cons rd rest ih =>
    intro s
    unfold insertRules
    by_cases hc : s.rules.any (fun r =>
        decide (r.config = cfgId) && decide (r.object_class = rd.object_class)) = true
    · rw [if_pos hc]
    · rw [if_neg hc]
      rw [ih]

/-- With pairwise distinct object classes and no pre-existing rule of the
config clashing with the list, the rule-insertion loop succeeds. -/
theorem insertRules_ok (cfgId : ConfigId) :
    ∀ (rds : List RuleData) (s : Store),
      noDupClasses rds = true →
      (∀ r ∈ s.rules, r.config = cfgId → ∀ rd ∈ rds, r.object_class ≠ rd.object_class) →
      (insertRules s cfgId rds).error = none := by
  intro rds
  induction rds with
  | nil =>
    intro s _ _
    simp [insertRules]
  | cons rd rest ih =>
    intro s hnd hdisj
    unfold insertRules
    have hc : s.rules.any (fun r =>
        decide (r.config = cfgId) && decide (r.object_class = rd.object_class)) = false := by
      rw [List.any_eq_false]
      intro r hr
      simp only [Bool.and_eq_true, decide_eq_true_eq, not_and]
      intro h1 h2
      exact hdisj r hr h1 rd (by simp) h2
    rw [if_neg (by simp [hc])]
    simp only [noDupClasses, Bool.and_eq_true, Bool.not_eq_true'] at hnd
    apply ih _ hnd.2
    intro r hr hcfg rd2 hrd2
    rcases List.mem_append.mp hr with h | h
    · exact hdisj r h hcfg rd2 (List.mem_cons_of_mem _ hrd2)
    · simp only [List.mem_singleton] at h
      subst h
      intro hcls
      have hno := List.any_eq_false.mp hnd.1 rd2 hrd2
      simp only [decide_eq_true_eq] at hno
      apply hno
      simpa [DetectionRule.ofData] using hcls.symm

/-- Deleting the rules of a config and filtering for that config gives
nothing. -/
theorem filter_deleted_config (l : List DetectionRule) (i : ConfigId) :
    (l.filter (fun r => ! decide (r.config = i))).filter
        (fun r => decide (r.config = i)) = [] := by
  induction l with
  | nil => rfl
  | cons r rest ih =>
    by_cases h : r.config = i
    · simp [List.filter_cons, h, ih]
    · simp [List.filter_cons, h, ih]

/-- Freshly built rules of a config all survive the filter for that config. -/
theorem filter_config_ofData (i : ConfigId) (rds : List RuleData) :
    (rds.map (DetectionRule.ofData i)).filter (fun r => decide (r.config = i)) =
      rds.map (DetectionRule.ofData i) := by
  induction rds with
  | nil => rfl
  | cons rd rest ih =>
    simp [DetectionRule.ofData, List.filter_cons, ih]

/-- Shape of the store after a successful row update. -/
theorem save_update_ok (s : Store) (c : DetectionConfig) (s1 : Store)
    (h : DetectionConfig.save_update s c = .ok s1) :
    s1.configs = s.configs.map (fun c0 => if c0.id = c.id then c else c0) ∧
      s1.rules = s.rules := by
  unfold DetectionConfig.save_update at h
  cases hclean : c.clean with
  | error e =>
    rw [hclean] at h
    exact absurd h (by simp)
  | ok u =>
    rw [hclean] at h
    by_cases hv : violatesUniqueConstraints s c = true
    · rw [if_pos hv] at h
      exact absurd h (by simp)
    · rw [if_neg hv] at h
      cases h
      exact ⟨rfl, rfl⟩

/-- Shape of the store after a successful row insert. -/
theorem save_insert_ok (s : Store) (c : DetectionConfig) (s1 : Store)
    (h : DetectionConfig.save_insert s c = .ok s1) :
    s1.configs = s.configs ++ [c] ∧ s1.rules = s.rules := by
  unfold DetectionConfig.save_insert at h
  cases hclean : c.clean with
  | error e =>
    rw [hclean] at h
    exact absurd h (by simp)
  | ok u =>
    rw [hclean] at h
    by_cases hv : violatesUniqueConstraints s c = true
    · rw [if_pos hv] at h
      exact absurd h (by simp)
    · rw [if_neg hv] at h
      cases h
      exact ⟨rfl, rfl⟩

/-- C7: when a camera override already exists, the PUT path updates it in
place: a supplied rules list totally replaces the stored rule set of that
config, no rules list leaves the stored rules untouched, and the number of
stored configs is unchanged (no second config is created). -/
theorem upsert_rule_replacement (s : Store) (cam : Camera) (d : UpdateData)
    (newId : ConfigId) (ex : DetectionConfig)
    (hex : s.getCameraOverride cam.id = some ex) :
    ((camera_config_put s cam d newId).error = none →
      ∀ rds, d.detection_rules = some rds →
        (camera_config_put s cam d newId).store.configRules ex.id =
          rds.map (DetectionRule.ofData ex.id)) ∧
    (d.detection_rules = none →
      (camera_config_put s cam d newId).store.rules = s.rules) ∧
    (camera_config_put s cam d newId).store.configs.length = s.configs.length := by
  by_cases hv : d.is_valid = true
  · have hput : camera_config_put s cam d newId =
        DetectionConfigCreateSerializer.update s ex d := by
      simp [camera_config_put, hv, hex]
    rw [hput]
    cases hsu : DetectionConfig.save_update s (applyUpdate ex d) with
    | error e =>
      have hres : DetectionConfigCreateSerializer.update s ex d = ⟨s, some e⟩ := by
        simp [DetectionConfigCreateSerializer.update, hsu]
      rw [hres]
      refine ⟨?_, ?_, rfl⟩
      · intro h
        exact absurd h (by simp)
      · intro _
        rfl
    | ok s1 =>
      obtain ⟨hc1, hr1⟩ := save_update_ok s (applyUpdate ex d) s1 hsu
      cases hrd : d.detection_rules with
      | none =>
        have hres : DetectionConfigCreateSerializer.update s ex d = ⟨s1, none⟩ := by
          simp [DetectionConfigCreateSerializer.update, hsu, hrd]
        rw [hres]
        refine ⟨?_, ?_, ?_⟩
        · intro _ rds hsome
          exact absurd hsome (by simp)
        · intro _
          exact hr1
        · rw [hc1]
          simp
      | some rds =>
        have hres : DetectionConfigCreateSerializer.update s ex d =
            insertRules
              { s1 with rules := s1.rules.filter (fun r => ! decide (r.config = ex.id)) }
              ex.id rds := by
          simp [DetectionConfigCreateSerializer.update, hsu, hrd]
        rw [hres]
        refine ⟨?_, ?_, ?_⟩
        · intro herr rds2 hsome
          injection hsome with hrds2
          subst hrds2
          have hrules := insertRules_error_none ex.id rds _ herr
          unfold Store.configRules
          rw [hrules]
          show ((s1.rules.filter (fun r => ! decide (r.config = ex.id)) ++
            rds.map (DetectionRule.ofData ex.id)).filter (fun r => decide (r.config = ex.id))) = _
          rw [List.filter_append, filter_deleted_config, filter_config_ofData]
          simp
        · intro h
          exact absurd h (by simp)
        · rw [insertRules_configs]
          show s1.configs.length = s.configs.length
          rw [hc1]
          simp
  · have hput : camera_config_put s cam d newId = ⟨s, some "serializer validation failed"⟩ := by
      simp [camera_config_put, hv]
    rw [hput]
    refine ⟨?_, ?_, rfl⟩
    · intro h
      exact absurd h (by simp)
    · intro _
      rfl
/-- Witness for C7: updating the existing override of camera 1 with a one-rule
list replaces its rule set by exactly that rule, leaves two configs stored. -/
theorem upsert_rule_replacement_witness :
    (camera_config_put sW camA dRules 9).store.configRules cfgC.id =
      [DetectionRule.ofData cfgC.id { object_class := "person", threat_level := .HIGH }] ∧
    (camera_config_put sW camA dRules 9).store.configs.length = sW.configs.length := by
  constructor
  · exact (upsert_rule_replacement sW camA dRules 9 cfgC (by decide)).1 (by decide)
      [{ object_class := "person", threat_level := .HIGH }] rfl
  · exact (upsert_rule_replacement sW camA dRules 9 cfgC (by decide)).2.2

/-- The serializer update never changes the scope fields of any stored
config: every config row afterwards matches a prior row in user, camera and
primary key. -/
theorem serializer_update_scope_helper (s : Store) (ex : DetectionConfig) (d : UpdateData)
    (hmem : ex ∈ s.configs) :
    ∀ c0 ∈ (DetectionConfigCreateSerializer.update s ex d).store.configs,
      ∃ c1 ∈ s.configs, c0.user = c1.user ∧ c0.camera = c1.camera ∧ c0.id = c1.id := by
  cases hsu : DetectionConfig.save_update s (applyUpdate ex d) with
  | error e =>
    have hres : DetectionConfigCreateSerializer.update s ex d = ⟨s, some e⟩ := by
      simp [DetectionConfigCreateSerializer.update, hsu]
    rw [hres]
    intro c0 h0
    exact ⟨c0, h0, rfl, rfl, rfl⟩
  | ok s1 =>
    obtain ⟨hc1, hr1⟩ := save_update_ok s (applyUpdate ex d) s1 hsu
    have hconfigs : (DetectionConfigCreateSerializer.update s ex d).store.configs =
        s1.configs := by
      cases hrd : d.detection_rules with
      | none => simp [DetectionConfigCreateSerializer.update, hsu, hrd]
      | some rds =>
        have hres : DetectionConfigCreateSerializer.update s ex d =
            insertRules
              { s1 with rules := s1.rules.filter (fun r => ! decide (r.config = ex.id)) }
              ex.id rds := by
          simp [DetectionConfigCreateSerializer.update, hsu, hrd]
        rw [hres, insertRules_configs]
    rw [hconfigs, hc1]
    intro c0 h0
    rcases List.mem_map.mp h0 with ⟨c1, hc1mem, heq⟩
    by_cases hid : c1.id = (applyUpdate ex d).id
    · rw [if_pos hid] at heq
      subst heq
      exact ⟨ex, hmem, rfl, rfl, rfl⟩
    · rw [if_neg hid] at heq
      subst heq
      exact ⟨c1, hc1mem, rfl, rfl, rfl⟩

/-- C10: a PUT against an already-existing config (camera endpoint or
user-default endpoint) leaves the scope fields of every stored config
unchanged; the serializer exposes no user or camera field, so an update can
never move a config between scopes. -/
theorem update_preserves_scope (s : Store) (cam : Camera) (uid : UserId)
    (d : UpdateData) (newId : ConfigId) :
    (∀ ex, s.getCameraOverride cam.id = some ex →
      ∀ c0 ∈ (camera_config_put s cam d newId).store.configs,
        ∃ c1 ∈ s.configs, c0.user = c1.user ∧ c0.camera = c1.camera ∧ c0.id = c1.id) ∧
    (∀ ex, s.getUserDefault uid = some ex →
      ∀ c0 ∈ (user_default_put s uid d newId).store.configs,
        ∃ c1 ∈ s.configs, c0.user = c1.user ∧ c0.camera = c1.camera ∧ c0.id = c1.id) := by
  constructor
  · intro ex hex c0 h0
    by_cases hv : d.is_valid = true
    · have hput : camera_config_put s cam d newId =
          DetectionConfigCreateSerializer.update s ex d := by
        simp [camera_config_put, hv, hex]
      rw [hput] at h0
      exact serializer_update_scope_helper s ex d (List.mem_of_find?_eq_some hex) c0 h0
    · have hput : camera_config_put s cam d newId = ⟨s, some "serializer validation failed"⟩ := by
        simp [camera_config_put, hv]
      rw [hput] at h0
      exact ⟨c0, h0, rfl, rfl, rfl⟩
  · intro ex hex c0 h0
    by_cases hv : d.is_valid = true
    · have hput : user_default_put s uid d newId =
          DetectionConfigCreateSerializer.update s ex d := by
        simp [user_default_put, hv, hex]
      rw [hput] at h0
      exact serializer_update_scope_helper s ex d (List.mem_of_find?_eq_some hex) c0 h0
    · have hput : user_default_put s uid d newId = ⟨s, some "serializer validation failed"⟩ := by
        simp [user_default_put, hv]
      rw [hput] at h0
      exact ⟨c0, h0, rfl, rfl, rfl⟩
/-- Witness for C10: after updating the override of camera 1, the updated
row still matches a prior stored row in user, camera and id. -/
theorem update_preserves_scope_witness :
    ∃ c1 ∈ sW.configs,
      (applyUpdate cfgC dThr).user = c1.user ∧
        (applyUpdate cfgC dThr).camera = c1.camera ∧
        (applyUpdate cfgC dThr).id = c1.id :=
  (update_preserves_scope sW camA 1 dThr 9).1 cfgC (by decide)
    (applyUpdate cfgC dThr) (by decide)

/-- C4 amended: when the supplied rule list itself is free of duplicate
object classes (and the fresh config id is unused by stored rules), the PUT
either succeeds outright or fails leaving the store exactly as before; the
counterexample shows the remaining case, a failing rule write after the
config row committed, is a real partial write. -/
theorem config_write_atomic_without_rule_conflict (s : Store) (cam : Camera)
    (d : UpdateData) (newId : ConfigId)
    (hnd : noDupClasses (d.detection_rules.getD []) = true)
    (hfresh : ∀ r ∈ s.rules, r.config ≠ newId) :
    (camera_config_put s cam d newId).error = none ∨
      (camera_config_put s cam d newId).store = s := by
  by_cases hv : d.is_valid = true
  · cases hex : s.getCameraOverride cam.id with
    | some ex =>
      have hput : camera_config_put s cam d newId =
          DetectionConfigCreateSerializer.update s ex d := by
        simp [camera_config_put, hv, hex]
      rw [hput]
      cases hsu : DetectionConfig.save_update s (applyUpdate ex d) with
      | error e =>
        right
        simp [DetectionConfigCreateSerializer.update, hsu]
      | ok s1 =>
        cases hrd : d.detection_rules with
        | none =>
          left
          simp [DetectionConfigCreateSerializer.update, hsu, hrd]
        | some rds =>
          left
          have hres : DetectionConfigCreateSerializer.update s ex d =
              insertRules
                { s1 with rules := s1.rules.filter (fun r => ! decide (r.config = ex.id)) }
                ex.id rds := by
            simp [DetectionConfigCreateSerializer.update, hsu, hrd]
          rw [hres]
          apply insertRules_ok
          · rw [hrd] at hnd
            simpa using hnd
          · intro r hr hcfg rd2 hrd2
            have hne := (List.mem_filter.mp hr).2
            simp only [Bool.not_eq_true', decide_eq_false_iff_not] at hne
            exact absurd hcfg hne
    | none =>
      cases hsi : DetectionConfig.save_insert s
          (DetectionConfig.ofValidatedData newId none (some cam.id) d) with
      | error e =>
        right
        simp [camera_config_put, hv, hex, hsi]
      | ok s1 =>
        left
        have hput : camera_config_put s cam d newId =
            insertRules s1 newId (d.detection_rules.getD []) := by
          simp [camera_config_put, hv, hex, hsi]
        rw [hput]
        obtain ⟨hc1, hr1⟩ := save_insert_ok s _ s1 hsi
        apply insertRules_ok
        · exact hnd
        · intro r hr hcfg rd2 hrd2
          rw [hr1] at hr
          exact absurd hcfg (hfresh r hr)
  · right
    simp [camera_config_put, hv]
/-- Witness for C4 amended, on the empty store with two distinct classes. -/
theorem config_write_atomic_without_rule_conflict_witness :
    (camera_config_put s0 camA dGood 1).error = none ∨
      (camera_config_put s0 camA dGood 1).store = s0 :=
  config_write_atomic_without_rule_conflict s0 camA dGood 1 (by decide) (by decide)
/-- Counterexample to C4 as stated: a PUT whose rule list repeats an object
class fails (the duplicate rule insert raises), yet the store afterwards
differs from the prior state — the new config row and the first rule have
been persisted, a partial write. -/
theorem atomicity_counterexample :
    ((camera_config_put s0 camA dDup 1).error).isSome = true ∧
    (camera_config_put s0 camA dDup 1).store ≠ s0 ∧
    (camera_config_put s0 camA dDup 1).store.configs.length = 1 ∧
    (camera_config_put s0 camA dDup 1).store.rules.length = 1 := by
  decide
/-- C8 is violated by the code: a write with confidence threshold 1.5 is
accepted (no validator bounds the field) and the value is persisted as is. -/
theorem confidence_range_not_validated :
    (camera_config_put s0 camA dHigh 1).error = none ∧
    (camera_config_put s0 camA dHigh 1).store.configs =
      [{ id := 1, user := none, camera := some 1, confidence_threshold := mkRat 3 2 }] := by
  decide
